import Mathlib

/-!
# Burrow `core/internal/helpers/storage.go`

A shallow embedding of the two functions of the file, `ConfigureLogger` and
`TimeoutSendStorageRequest`, together with the parts of the Go language and
standard library they rest on (`strings.ToLower`, `time.Duration` arithmetic,
the deadline computed by `time.After`, channel sends and the `select`
statement).

Everything the Go runtime or another goroutine decides is made explicit as a
value of `World`, so that the functions are ordinary computable functions of
their arguments and of the world they run in.
-/

namespace Burrow

/-! ## Machine integers -/

/-- The largest `int64`. -/
def maxInt64 : Int := 9223372036854775807

/-- The value an `int64` computation yields: the two's-complement
representative, in `[-2^63, 2^63)`, of the exact result modulo `2^64`. -/
def wrap64 (x : Int) : Int :=
  (x + 9223372036854775808) % 18446744073709551616 - 9223372036854775808

/-! ## Logging: zap levels, viper configuration, `ConfigureLogger` -/

/-- The severities of `zapcore.Level`, in increasing order. -/
inductive Level where
  | DebugLevel
  | InfoLevel
  | WarnLevel
  | ErrorLevel
  | DPanicLevel
  | PanicLevel
  | FatalLevel
  deriving DecidableEq, Repr

/-- The numeric value zap gives a level (`DebugLevel = -1`, `InfoLevel = 0`, ...). -/
def Level.toInt : Level → Int
  | .DebugLevel => -1
  | .InfoLevel => 0
  | .WarnLevel => 1
  | .ErrorLevel => 2
  | .DPanicLevel => 3
  | .PanicLevel => 4
  | .FatalLevel => 5

/-- The test `zapcore.LevelEnabler.Enabled`: a record of severity `lvl` is written
when it is at or above the threshold. -/
def Level.Enabled (threshold lvl : Level) : Bool :=
  decide (threshold.toInt ≤ lvl.toInt)

/-- The values viper holds for the `logging.*` keys; `none` is a key that was
never set. -/
structure Viper where
  level : Option String
  filename : Option String
  maxsize : Option Int
  maxbackups : Option Int
  maxage : Option Int
  useLocaltime : Option Bool
  useCompression : Option Bool
  deriving DecidableEq, Repr

/-- A configuration in which no logging key is set. -/
def Viper.unset : Viper :=
  { level := none, filename := none, maxsize := none, maxbackups := none,
    maxage := none, useLocaltime := none, useCompression := none }

/-- Where the zap core writes: `zapcore.Lock(os.Stdout)` or a lumberjack rotating file. -/
inductive WriteSyncer where
  | stdout
  | lumberjack (Filename : String) (MaxSize MaxBackups MaxAge : Int) (LocalTime Compress : Bool)
  deriving DecidableEq, Repr

/-- The size limit of lumberjack's `max()`, in bytes: `MaxSize` megabytes as an
`int64` product, or 100 megabytes when `MaxSize` is 0. -/
def lumberjackMax (MaxSize : Int) : Int :=
  if MaxSize = 0 then 104857600 else wrap64 (MaxSize * 1048576)

/-- The write syncer takes a record of this program when the operating system carries
out the write (`ioOk`) and, for lumberjack, the record is not longer than `max()`.
The limit is a multiple of 2^20 and a record written here is at least 1 and less
than 2^20 bytes long, so lumberjack refuses it exactly when the limit is not positive
(`logging.maxsize` negative, or so large that the product wraps to 0 or below). -/
def WriteSyncer.accepts (out : WriteSyncer) (ioOk : Bool) : Bool :=
  match out with
  | .stdout => ioOk
  | .lumberjack _ MaxSize _ _ _ _ => decide (0 < lumberjackMax MaxSize) && ioOk

/-- What the process writes. `printf` is a raw `fmt.Printf` to standard output;
`record` is one JSON record written by the zap core to its write syncer;
`writeError` is the line zap prints on standard error ("write error: ...") when the
write syncer returned an error for the record, which is then not written. -/
inductive Emit where
  | printf (text : String)
  | record (out : WriteSyncer) (lvl : Level) (msg : String)
  | writeError (out : WriteSyncer) (lvl : Level) (msg : String)
  deriving DecidableEq, Repr

/-- A `*zap.Logger` built by `zap.New(core)`: the core's threshold and write syncer. -/
structure Logger where
  level : Level
  out : WriteSyncer
  deriving DecidableEq, Repr

/-- The call `logger.Info(msg)`: nothing when the threshold does not admit info;
otherwise the record is handed to the write syncer, and is either written or, when the
syncer returns an error, reported by zap on standard error. `ioOk` says whether the
operating system carries out the write. -/
def Logger.Info (l : Logger) (ioOk : Bool) (msg : String) : List Emit :=
  if l.level.Enabled .InfoLevel then
    if l.out.accepts ioOk then [.record l.out .InfoLevel msg]
    else [.writeError l.out .InfoLevel msg]
  else []

/-- The function `strings.ToLower`: a string of ASCII characters has its letters
`A`..`Z` shifted to `a`..`z`; any other string is mapped rune by rune through
`unicode.ToLower`, which is the parameter `unicodeToLower`. -/
def ToLower (unicodeToLower : Char → Char) (s : String) : String :=
  if s.data.all (fun c => decide (c.toNat < 128)) then
    String.mk (s.data.map Char.toLower)
  else
    String.mk (s.data.map unicodeToLower)

/-- The result of `ConfigureLogger`: the logger, the level handle (the
`AtomicLevel` the core filters with, whence the same threshold), the logger
installed by `zap.ReplaceGlobals`, and what the call wrote. -/
structure LoggerSetup where
  logger : Logger
  level : Level
  globalLogger : Logger
  printed : List Emit
  deriving DecidableEq, Repr

/-- The string `viper.GetString("logging.level")` returns after
`viper.SetDefault("logging.level", "info")`. -/
def Viper.loggingLevel (v : Viper) : String :=
  v.level.getD "info"

/-- The `switch strings.ToLower(logLevel)` of `ConfigureLogger`: the threshold and
what the `default` branch prints. -/
def levelSwitch (unicodeToLower : Char → Char) (logLevel : String) : Level × List Emit :=
  let l := ToLower unicodeToLower logLevel
  if l = "" ∨ l = "info" then (.InfoLevel, [])
  else if l = "debug" then (.DebugLevel, [])
  else if l = "warn" then (.WarnLevel, [])
  else if l = "error" then (.ErrorLevel, [])
  else if l = "panic" then (.PanicLevel, [])
  else if l = "fatal" then (.FatalLevel, [])
  else (.InfoLevel, [.printf ("Invalid log level supplied. Defaulting to info: " ++ logLevel)])

/-- The function `ConfigureLogger`. -/
def ConfigureLogger (unicodeToLower : Char → Char) (v : Viper) : LoggerSetup :=
  let logLevel := v.loggingLevel
  let sw := levelSwitch unicodeToLower logLevel
  let logFilename := v.filename.getD ""
  let syncOutput :=
    if logFilename ≠ "" then
      WriteSyncer.lumberjack logFilename (v.maxsize.getD 100) (v.maxbackups.getD 10)
        (v.maxage.getD 30) (v.useLocaltime.getD false) (v.useCompression.getD false)
    else WriteSyncer.stdout
  let logger : Logger := { level := sw.1, out := syncOutput }
  { logger := logger, level := sw.1, globalLogger := logger, printed := sw.2 }

/-! ## Time: `time.Duration` arithmetic and the deadline of `time.After` -/

/-- The constant `time.Second`, in nanoseconds. -/
def Second : Int := 1000000000

/-- The expression `time.Duration(maxTime) * time.Second`: an `int64` product. -/
def Duration (maxTime : Int) : Int :=
  wrap64 (maxTime * Second)

/-- The instant at which a timer created at clock reading `now` with duration `d` fires
(the helper `when` of package `time`): a duration that is not positive is ignored, and a
sum that overflows `int64` is replaced by the largest instant. -/
def when (now d : Int) : Int :=
  if d ≤ 0 then now
  else
    let t := wrap64 (now + d)
    if t < 0 then maxInt64 else t

/-- The function `strconv.Itoa`. -/
def Itoa (i : Int) : String :=
  toString i

/-! ## Channels -/

/-- A `*protocol.StorageRequest`: the function never looks inside it. -/
abbrev Request := Nat

/-- The state of a `chan *protocol.StorageRequest`. `buf` holds the buffered
elements, oldest first; `recvq` counts the goroutines parked in a receive;
`received` records, oldest first, the elements the receivers have taken so far. -/
structure Chan where
  cap : Nat
  buf : List Request
  recvq : Nat
  closed : Bool
  received : List Request
  deriving DecidableEq, Repr

/-- The states a Go channel can be in: the buffer holds at most `cap` elements, a
receiver is parked only when the buffer is empty and the channel is open. -/
def Chan.WF (c : Chan) : Prop :=
  c.buf.length ≤ c.cap ∧ (0 < c.recvq → c.buf = [] ∧ c.closed = false)

instance (c : Chan) : Decidable c.WF := by
  unfold Chan.WF; infer_instance

/-- Everything that has been sent into the channel so far, oldest first: what the
receivers have taken followed by what waits in the buffer. -/
def Chan.contents (c : Chan) : List Request :=
  c.received ++ c.buf

/-- A send on the channel can proceed without parking: the channel is closed (the
send proceeds by panicking), a receiver is parked, or the buffer has room. -/
def Chan.sendReady (c : Chan) : Bool :=
  c.closed || decide (0 < c.recvq) || decide (c.buf.length < c.cap)

/-- The channel after a send that found a parked receiver (the element is handed
over to it) or room in the buffer (the element is queued). -/
def Chan.send (c : Chan) (r : Request) : Chan :=
  if 0 < c.recvq then { c with recvq := c.recvq - 1, received := c.received ++ [r] }
  else { c with buf := c.buf ++ [r] }

/-- The channel after a receive by another goroutine releases a sender parked with
element `r`: on an unbuffered channel the receiver takes `r`; on a full buffered
channel it takes the oldest element and `r` enters the buffer. -/
def Chan.recvFromParked (c : Chan) (r : Request) : Chan :=
  match c.buf with
  | [] => { c with received := c.received ++ [r] }
  | x :: rest => { c with buf := rest ++ [r], received := c.received ++ [x] }

/-- What another goroutine does to the channel while the sender is parked. -/
inductive ChanEvent where
  | recv
  | close
  deriving DecidableEq, Repr

/-! ## `TimeoutSendStorageRequest` -/

/-- What the Go runtime and the other goroutines decide during one call.
`now` is the monotonic clock (ns) when `time.After` runs; `lag` the time the two
`logger.Info` calls between `time.After` and the `select` take; `pick` the
pseudo-random choice `select` makes when both cases can proceed (`true` is the
send case); `wake` the first operation of another goroutine on the channel while
the call is parked in `select`, with its delay (ns) after the `select` began;
`failedWrites` the positions (0, 1, 2) of the `logger.Info` calls of this call whose
write the operating system fails; `asynctimerchan` the timer implementation of the
runtime: `true` is the one of Go before 1.23 (and of later versions run with
`GODEBUG=asynctimerchan=1`), in which a timer stays in the runtime from its creation
until it fires or is stopped; `false` is the one of Go 1.23 and later, in which the
timer of `time.After` is kept by the runtime only while a goroutine is blocked on its
channel.

The channel state handed to the call is the one the `select` finds: no other
goroutine acts on the channel between the call and the `select`. While the call is
parked the operations of other goroutines considered are a receive and a close;
other producers are outside the model. -/
structure World where
  now : Int
  lag : Nat
  pick : Bool
  wake : Option (Nat × ChanEvent)
  failedWrites : List Nat
  asynctimerchan : Bool
  deriving DecidableEq, Repr

/-- How a call ends: it returns a boolean, or panics with "send on closed channel". -/
inductive Outcome where
  | returned (ok : Bool)
  | panicked
  deriving DecidableEq, Repr

/-- The observable result of one call: how it ended, the channel, the firing instants
of the timers the runtime holds pending, everything written (and every write error
reported), and the clock reading at which the call ended. -/
structure Final where
  outcome : Outcome
  ch : Chan
  timers : List Int
  out : List Emit
  endedAt : Int
  deriving DecidableEq, Repr

/-- The timers pending when the call leaves the `select` at instant `t` without having
taken the timer case. The function never stops its timer. On a runtime older than
Go 1.23 the timer, due at `deadline`, is therefore still held when `t` is before
`deadline`. On Go 1.23 and later the runtime holds the timer only while a goroutine
is blocked on its channel, which the call no longer is. -/
def pendingAfterSelect (asynctimerchan : Bool) (timers : List Int) (deadline t : Int) :
    List Int :=
  if asynctimerchan = true ∧ t < deadline then timers ++ [deadline] else timers

/-- The send case of the `select` is taken at instant `t`: a closed channel panics,
otherwise the element is sent and the function returns `true`. -/
def sendCase (asynctimerchan : Bool) (ch : Chan) (request : Request) (timers : List Int)
    (deadline t : Int) (out : List Emit) : Final :=
  { outcome := if ch.closed then .panicked else .returned true
    ch := if ch.closed then ch else ch.send request
    timers := pendingAfterSelect asynctimerchan timers deadline t
    out := out
    endedAt := t }

/-- The timer case of the `select` is taken at instant `t`: the timer has fired, the
channel is untouched and the function returns `false`. -/
def timerCase (ch : Chan) (timers : List Int) (t : Int) (out : List Emit) : Final :=
  { outcome := .returned false, ch := ch, timers := timers, out := out, endedAt := t }

/-- The statement `select { case storageChannel <- request: return true;
case <-timeout: return false }`, reached at instant `t` with the timer due at `timeout`.
The send case can proceed when `sendReady` holds, the timer case when the timer's
instant has been reached. If exactly one can proceed it is taken; if both can, `select`
picks; if neither can, the goroutine parks until another goroutine receives from or
closes the channel, or the timer fires, whichever comes first (the timer wins a tie). -/
def selectSendOrTimeout (w : World) (timers : List Int) (storageChannel : Chan)
    (request : Request) (timeout t : Int) (out : List Emit) : Final :=
  if storageChannel.sendReady then
    if timeout ≤ t then
      if w.pick then sendCase w.asynctimerchan storageChannel request timers timeout t out
      else timerCase storageChannel timers t out
    else sendCase w.asynctimerchan storageChannel request timers timeout t out
  else if timeout ≤ t then timerCase storageChannel timers t out
  else
    match w.wake with
    | some (delay, ev) =>
      if t + delay < timeout then
        match ev with
        | .recv =>
          { outcome := .returned true
            ch := storageChannel.recvFromParked request
            timers := pendingAfterSelect w.asynctimerchan timers timeout (t + delay)
            out := out
            endedAt := t + delay }
        | .close =>
          { outcome := .panicked
            ch := { storageChannel with closed := true }
            timers := pendingAfterSelect w.asynctimerchan timers timeout (t + delay)
            out := out
            endedAt := t + delay }
      else timerCase storageChannel timers timeout out
    | none => timerCase storageChannel timers timeout out

/-- The function `TimeoutSendStorageRequest`, run in world `w` with `timers` pending
and viper holding `v`: the logger is configured, the entry is logged, `time.After`
creates the timer, two more records are logged, and the `select` runs. -/
def TimeoutSendStorageRequest (unicodeToLower : Char → Char) (v : Viper) (w : World)
    (timers : List Int) (storageChannel : Chan) (request : Request) (maxTime : Int) : Final :=
  let logger := (ConfigureLogger unicodeToLower v).logger
  let out0 := (ConfigureLogger unicodeToLower v).printed
  let out1 := out0 ++ logger.Info (!w.failedWrites.contains 0) "In TimeoutSendStorageRequest(...)"
  let timeout := when w.now (Duration maxTime)
  let out2 := out1 ++ logger.Info (!w.failedWrites.contains 1) ("Duration = " ++ Itoa maxTime)
  let out3 := out2 ++ logger.Info (!w.failedWrites.contains 2)
    "After the timeout in TimeoutSendStorageRequest(...)"
  selectSendOrTimeout w timers storageChannel request timeout (w.now + w.lag) out3

/-- A world in which the `select` is reached at once and nobody else touches the channel. -/
def World.quiet : World :=
  { now := 0, lag := 0, pick := true, wake := none, failedWrites := [],
    asynctimerchan := false }

/-- A world in which the `select` is reached 3 ns after the timer was created and a
receiver turns up 2 s later. -/
def World.lateReceiver : World :=
  { now := 5, lag := 3, pick := true, wake := some (2000000000, ChanEvent.recv),
    failedWrites := [], asynctimerchan := false }

/-- A world in which `select` picks the timer case when both cases can proceed. -/
def World.picksTimer : World :=
  { now := 0, lag := 0, pick := false, wake := none, failedWrites := [],
    asynctimerchan := false }

/-- A world in which a receiver turns up 5 ns after the `select` began. -/
def World.promptReceiver : World :=
  { now := 0, lag := 0, pick := true, wake := some (5, ChanEvent.recv),
    failedWrites := [], asynctimerchan := false }

/-- The quiet world on a runtime older than Go 1.23. -/
def World.beforeGo123 : World :=
  { now := 0, lag := 0, pick := true, wake := none, failedWrites := [],
    asynctimerchan := true }

/-- The quiet world in which the operating system fails the second log write. -/
def World.secondWriteFails : World :=
  { now := 0, lag := 0, pick := true, wake := none, failedWrites := [1],
    asynctimerchan := false }

/-- A configuration that logs to a rotating file with `logging.maxsize` set to -1. -/
def Viper.negativeMaxsize : Viper :=
  { Viper.unset with filename := some "burrow.log", maxsize := some (-1) }

/-- An open unbuffered channel on which one receiver is parked. -/
def Chan.withReceiver : Chan :=
  { cap := 0, buf := [], recvq := 1, closed := false, received := [] }

/-- An open channel of capacity `cap` with an empty buffer and no receiver. -/
def Chan.empty (cap : Nat) : Chan :=
  { cap := cap, buf := [], recvq := 0, closed := false, received := [] }

/-- A closed unbuffered channel. -/
def Chan.closedEmpty : Chan :=
  { cap := 0, buf := [], recvq := 0, closed := true, received := [] }

/-- Everything one call writes: what `ConfigureLogger` prints, then the three
`logger.Info` calls in program order. -/
def written (f : Char → Char) (v : Viper) (w : World) (maxTime : Int) : List Emit :=
  (ConfigureLogger f v).printed
    ++ (ConfigureLogger f v).logger.Info (!w.failedWrites.contains 0)
        "In TimeoutSendStorageRequest(...)"
    ++ (ConfigureLogger f v).logger.Info (!w.failedWrites.contains 1)
        ("Duration = " ++ Itoa maxTime)
    ++ (ConfigureLogger f v).logger.Info (!w.failedWrites.contains 2)
        "After the timeout in TimeoutSendStorageRequest(...)"

/-- What one `logger.Info` call leaves behind when the threshold admits it: the record
when the write was taken, the write error reported on standard error when not. -/
def logged (out : WriteSyncer) (ok : Bool) (msg : String) : Emit :=
  if ok then Emit.record out Level.InfoLevel msg else Emit.writeError out Level.InfoLevel msg

/-- The lower-case names the `switch` of `ConfigureLogger` has a case for. -/
def recognized : List String :=
  ["", "info", "debug", "warn", "error", "panic", "fatal"]

/-! ## Facts about the level switch -/

theorem levelSwitch_fst (f : Char → Char) (s : String) :
    (levelSwitch f s).1 =
      if ToLower f s = "debug" then Level.DebugLevel
      else if ToLower f s = "warn" then Level.WarnLevel
      else if ToLower f s = "error" then Level.ErrorLevel
      else if ToLower f s = "panic" then Level.PanicLevel
      else if ToLower f s = "fatal" then Level.FatalLevel
      else Level.InfoLevel := by
  unfold levelSwitch
  by_cases h1 : ToLower f s = ""
  · simp [h1]
  by_cases h2 : ToLower f s = "info"
  · simp [h2]
  by_cases h3 : ToLower f s = "debug"
  · simp [h3]
  by_cases h4 : ToLower f s = "warn"
  · simp [h4]
  by_cases h5 : ToLower f s = "error"
  · simp [h5]
  by_cases h6 : ToLower f s = "panic"
  · simp [h6]
  by_cases h7 : ToLower f s = "fatal"
  · simp [h7]
  simp [h1, h2, h3, h4, h5, h6, h7]

theorem levelSwitch_snd (f : Char → Char) (s : String) :
    (levelSwitch f s).2 =
      if ToLower f s ∈ recognized then []
      else [Emit.printf ("Invalid log level supplied. Defaulting to info: " ++ s)] := by
  unfold levelSwitch recognized
  by_cases h1 : ToLower f s = ""
  · simp [h1]
  by_cases h2 : ToLower f s = "info"
  · simp [h2]
  by_cases h3 : ToLower f s = "debug"
  · simp [h3]
  by_cases h4 : ToLower f s = "warn"
  · simp [h4]
  by_cases h5 : ToLower f s = "error"
  · simp [h5]
  by_cases h6 : ToLower f s = "panic"
  · simp [h6]
  by_cases h7 : ToLower f s = "fatal"
  · simp [h7]
  simp [h1, h2, h3, h4, h5, h6, h7]

theorem ToLower_info (f : Char → Char) : ToLower f "info" = "info" := by
  rfl

theorem ToLower_empty (f : Char → Char) : ToLower f "" = "" := by
  rfl

/-! ## Facts about durations and deadlines -/

theorem Duration_exact (T : Int) (h1 : -9223372036 ≤ T) (h2 : T ≤ 9223372036) :
    Duration T = T * 1000000000 := by
  unfold Duration wrap64 Second
  omega

theorem when_of_nonpos (now d : Int) (h : d ≤ 0) : when now d = now := by
  unfold when
  simp [h]

theorem when_of_pos (now d : Int) (hd : 0 < d) (hnow : 0 ≤ now)
    (hrep : now + d ≤ maxInt64) : when now d = now + d := by
  unfold when wrap64
  unfold maxInt64 at hrep
  have h1 : ¬ d ≤ 0 := by omega
  have h2 : (now + d + 9223372036854775808) % 18446744073709551616 - 9223372036854775808
      = now + d := by omega
  simp only [h1, if_false, h2]
  have h3 : ¬ now + d < 0 := by omega
  simp [h3]

theorem when_saturates (now d : Int) (hd : 0 < d) (hd2 : d ≤ maxInt64) (hnow : 0 ≤ now)
    (hnow2 : now ≤ maxInt64) (hrep : maxInt64 < now + d) : when now d = maxInt64 := by
  unfold when wrap64
  unfold maxInt64 at hrep hd2 hnow2
  have h1 : ¬ d ≤ 0 := by omega
  have h2 : (now + d + 9223372036854775808) % 18446744073709551616 - 9223372036854775808
      = now + d - 18446744073709551616 := by omega
  simp only [h1, if_false, h2]
  have h3 : now + d - 18446744073709551616 < 0 := by omega
  simp [h3]

/-- The deadline of a call with an in-range, non-negative timeout. -/
theorem when_Duration (now T : Int) (h1 : 0 ≤ T) (h2 : T ≤ 9223372036) (hnow : 0 ≤ now)
    (hrep : now + T * 1000000000 ≤ maxInt64) :
    when now (Duration T) = now + T * 1000000000 := by
  rw [Duration_exact T (by omega) h2]
  rcases lt_or_ge 0 T with h | h
  · exact when_of_pos now _ (by omega) hnow hrep
  · have : T = 0 := by omega
    subst this
    simp [when_of_nonpos]

/-! ## `ConfigureLogger` -/

/-- C5: the threshold `ConfigureLogger` returns is the level named by the lower-cased
`logging.level` string when that is debug, info, warn, error, panic or fatal; it is
info when the option is unset or empty, and info for every other string. -/
theorem C5_threshold_of_level_string (f : Char → Char) (v : Viper) :
    (ToLower f v.loggingLevel = "debug" → (ConfigureLogger f v).level = Level.DebugLevel) ∧
    (ToLower f v.loggingLevel = "info" → (ConfigureLogger f v).level = Level.InfoLevel) ∧
    (ToLower f v.loggingLevel = "warn" → (ConfigureLogger f v).level = Level.WarnLevel) ∧
    (ToLower f v.loggingLevel = "error" → (ConfigureLogger f v).level = Level.ErrorLevel) ∧
    (ToLower f v.loggingLevel = "panic" → (ConfigureLogger f v).level = Level.PanicLevel) ∧
    (ToLower f v.loggingLevel = "fatal" → (ConfigureLogger f v).level = Level.FatalLevel) ∧
    (v.level = none → (ConfigureLogger f v).level = Level.InfoLevel) ∧
    (v.level = some "" → (ConfigureLogger f v).level = Level.InfoLevel) ∧
    (ToLower f v.loggingLevel ∉ ["debug", "info", "warn", "error", "panic", "fatal"] →
      (ConfigureLogger f v).level = Level.InfoLevel) ∧
    (ConfigureLogger f v).logger.level = (ConfigureLogger f v).level := by
  have key : (ConfigureLogger f v).level = (levelSwitch f v.loggingLevel).1 := rfl
  rw [key, levelSwitch_fst]
  refine ⟨?_, ?_, ?_, ?_, ?_, ?_, ?_, ?_, ?_, (levelSwitch_fst f _).symm ▸ key⟩
  · intro h; simp [h]
  · intro h; simp [h]
  · intro h; simp [h]
  · intro h; simp [h]
  · intro h; simp [h]
  · intro h; simp [h]
  · intro h; simp [Viper.loggingLevel, h, ToLower_info]
  · intro h; simp [Viper.loggingLevel, h, ToLower_empty]
  · intro h
    simp only [List.mem_cons, List.mem_singleton, List.not_mem_nil, or_false, not_or] at h
    simp [h.1, h.2.2.1, h.2.2.2.1, h.2.2.2.2.1, h.2.2.2.2.2]

/-- C6: `ConfigureLogger` always returns a logger and a level handle with the same
threshold; it writes exactly the line "Invalid log level supplied. Defaulting to info: "
followed by the supplied value, by a raw print and not as a log record, when the
lower-cased level string is none of "", info, debug, warn, error, panic, fatal, and
writes nothing otherwise; in the unrecognized case the threshold is info. -/
theorem C6_warning_iff_unrecognized (f : Char → Char) (v : Viper) :
    (ConfigureLogger f v).logger.level = (ConfigureLogger f v).level ∧
    (Emit.printf ("Invalid log level supplied. Defaulting to info: " ++ v.loggingLevel)
        ∈ (ConfigureLogger f v).printed ↔
      ToLower f v.loggingLevel ∉ ["", "info", "debug", "warn", "error", "panic", "fatal"]) ∧
    (ConfigureLogger f v).printed =
      (if ToLower f v.loggingLevel ∈ ["", "info", "debug", "warn", "error", "panic", "fatal"]
       then []
       else [Emit.printf ("Invalid log level supplied. Defaulting to info: " ++ v.loggingLevel)]) ∧
    (∀ out lvl msg, Emit.record out lvl msg ∉ (ConfigureLogger f v).printed) ∧
    (ToLower f v.loggingLevel ∉ ["", "info", "debug", "warn", "error", "panic", "fatal"] →
      (ConfigureLogger f v).level = Level.InfoLevel) := by
  have key : (ConfigureLogger f v).level = (levelSwitch f v.loggingLevel).1 := rfl
  have keyp : (ConfigureLogger f v).printed = (levelSwitch f v.loggingLevel).2 := rfl
  have hp := levelSwitch_snd f v.loggingLevel
  unfold recognized at hp
  rw [keyp, hp, key, levelSwitch_fst]
  refine ⟨(levelSwitch_fst f _).symm ▸ key, ?_, rfl, ?_, ?_⟩
  · by_cases h : ToLower f v.loggingLevel ∈ ["", "info", "debug", "warn", "error", "panic", "fatal"]
    · simp [h]
    · simp [h]
  · intro out lvl msg
    by_cases h : ToLower f v.loggingLevel ∈ ["", "info", "debug", "warn", "error", "panic", "fatal"]
    · simp [h]
    · simp [h]
  · intro h
    simp only [List.mem_cons, List.mem_singleton, List.not_mem_nil, or_false, not_or] at h
    simp [h.2.2.1, h.2.2.2.1, h.2.2.2.2.1, h.2.2.2.2.2.1, h.2.2.2.2.2.2]

theorem printed_record_free (f : Char → Char) (v : Viper) :
    ∀ o l m, Emit.record o l m ∉ (ConfigureLogger f v).printed := by
  intro o l m
  have keyp : (ConfigureLogger f v).printed = (levelSwitch f v.loggingLevel).2 := rfl
  rw [keyp, levelSwitch_snd]
  by_cases h : ToLower f v.loggingLevel ∈ recognized
  · simp [h]
  · simp [h]

/-! ## `TimeoutSendStorageRequest`: delivery -/

theorem contents_send (c : Chan) (r : Request) (h : c.WF) :
    (c.send r).contents = c.contents ++ [r] := by
  unfold Chan.send Chan.contents
  by_cases hq : 0 < c.recvq
  · have hb := (h.2 hq).1
    simp [hq, hb]
  · simp [hq]

theorem contents_recvFromParked (c : Chan) (r : Request) :
    (c.recvFromParked r).contents = c.contents ++ [r] := by
  unfold Chan.recvFromParked Chan.contents
  cases hb : c.buf with
  | nil => simp
  | cons x rest => simp

/-- The call when the send can proceed and the timer has not fired: the send case runs. -/
theorem run_ready_early (f : Char → Char) (v : Viper) (w : World) (timers : List Int)
    (ch : Chan) (req : Request) (T : Int) (hr : ch.sendReady = true)
    (he : ¬ when w.now (Duration T) ≤ w.now + w.lag) :
    TimeoutSendStorageRequest f v w timers ch req T
      = sendCase w.asynctimerchan ch req timers (when w.now (Duration T)) (w.now + w.lag) (written f v w T) := by
  simp [TimeoutSendStorageRequest, selectSendOrTimeout, written, hr, he]

/-- The call when both cases can proceed: `select` picks one. -/
theorem run_ready_late (f : Char → Char) (v : Viper) (w : World) (timers : List Int)
    (ch : Chan) (req : Request) (T : Int) (hr : ch.sendReady = true)
    (he : when w.now (Duration T) ≤ w.now + w.lag) :
    TimeoutSendStorageRequest f v w timers ch req T
      = if w.pick then
          sendCase w.asynctimerchan ch req timers (when w.now (Duration T)) (w.now + w.lag) (written f v w T)
        else timerCase ch timers (w.now + w.lag) (written f v w T) := by
  simp [TimeoutSendStorageRequest, selectSendOrTimeout, written, hr, he]

/-- The call when only the timer case can proceed. -/
theorem run_full_late (f : Char → Char) (v : Viper) (w : World) (timers : List Int)
    (ch : Chan) (req : Request) (T : Int) (hr : ch.sendReady = false)
    (he : when w.now (Duration T) ≤ w.now + w.lag) :
    TimeoutSendStorageRequest f v w timers ch req T
      = timerCase ch timers (w.now + w.lag) (written f v w T) := by
  simp [TimeoutSendStorageRequest, selectSendOrTimeout, written, hr, he]

/-- The call when neither case can proceed and nothing happens to the channel before
the timer fires. -/
theorem run_parked_timer (f : Char → Char) (v : Viper) (w : World) (timers : List Int)
    (ch : Chan) (req : Request) (T : Int) (hr : ch.sendReady = false)
    (he : ¬ when w.now (Duration T) ≤ w.now + w.lag)
    (hq : ∀ d ev, w.wake = some (d, ev) → when w.now (Duration T) ≤ w.now + w.lag + d) :
    TimeoutSendStorageRequest f v w timers ch req T
      = timerCase ch timers (when w.now (Duration T)) (written f v w T) := by
  rcases hw : w.wake with _ | ⟨d, ev⟩
  · simp [TimeoutSendStorageRequest, selectSendOrTimeout, written, hr, he, hw]
  · have h := hq d ev hw
    have h2 : ¬ w.now + w.lag + d < when w.now (Duration T) := not_lt.mpr h
    simp [TimeoutSendStorageRequest, selectSendOrTimeout, written, hr, he, hw, h2]

/-- The call when neither case can proceed and another goroutine acts on the channel
before the timer fires. -/
theorem run_parked_woken (f : Char → Char) (v : Viper) (w : World) (timers : List Int)
    (ch : Chan) (req : Request) (T : Int) (hr : ch.sendReady = false)
    (he : ¬ when w.now (Duration T) ≤ w.now + w.lag) (d : Nat) (ev : ChanEvent)
    (hw : w.wake = some (d, ev)) (hd : w.now + w.lag + d < when w.now (Duration T)) :
    TimeoutSendStorageRequest f v w timers ch req T
      = { outcome := if ev = ChanEvent.recv then Outcome.returned true else Outcome.panicked
          ch := if ev = ChanEvent.recv then ch.recvFromParked req
                else { ch with closed := true }
          timers := pendingAfterSelect w.asynctimerchan timers (when w.now (Duration T))
            (w.now + w.lag + d)
          out := written f v w T
          endedAt := w.now + w.lag + d } := by
  cases ev <;> simp [TimeoutSendStorageRequest, selectSendOrTimeout, written, hr, he, hw, hd]

/-- The five ways a call can run, as a case split for proofs. -/
theorem run_cases (f : Char → Char) (v : Viper) (w : World) (timers : List Int)
    (ch : Chan) (req : Request) (T : Int) :
    (ch.sendReady = true ∧ TimeoutSendStorageRequest f v w timers ch req T
      = sendCase w.asynctimerchan ch req timers (when w.now (Duration T)) (w.now + w.lag) (written f v w T)) ∨
    (when w.now (Duration T) ≤ w.now + w.lag ∧ TimeoutSendStorageRequest f v w timers ch req T
      = timerCase ch timers (w.now + w.lag) (written f v w T)) ∨
    (ch.sendReady = false ∧ ¬ when w.now (Duration T) ≤ w.now + w.lag ∧
      TimeoutSendStorageRequest f v w timers ch req T
        = timerCase ch timers (when w.now (Duration T)) (written f v w T)) ∨
    (ch.sendReady = false ∧ ∃ d ev, w.wake = some (d, ev) ∧
      w.now + w.lag + d < when w.now (Duration T) ∧
      TimeoutSendStorageRequest f v w timers ch req T
        = { outcome := if ev = ChanEvent.recv then Outcome.returned true else Outcome.panicked
            ch := if ev = ChanEvent.recv then ch.recvFromParked req
                  else { ch with closed := true }
            timers := pendingAfterSelect w.asynctimerchan timers (when w.now (Duration T))
              (w.now + w.lag + d)
            out := written f v w T
            endedAt := w.now + w.lag + d }) := by
  by_cases hr : ch.sendReady = true
  · by_cases he : when w.now (Duration T) ≤ w.now + w.lag
    · have h := run_ready_late f v w timers ch req T hr he
      by_cases hp : w.pick = true
      · left; exact ⟨hr, by rw [h]; simp [hp]⟩
      · right; left; exact ⟨he, by rw [h]; simp [hp]⟩
    · left; exact ⟨hr, run_ready_early f v w timers ch req T hr he⟩
  · have hr2 : ch.sendReady = false := by simpa using hr
    by_cases he : when w.now (Duration T) ≤ w.now + w.lag
    · right; left; exact ⟨he, run_full_late f v w timers ch req T hr2 he⟩
    · by_cases hq : ∀ d ev, w.wake = some (d, ev) → when w.now (Duration T) ≤ w.now + w.lag + d
      · right; right; left
        exact ⟨hr2, he, run_parked_timer f v w timers ch req T hr2 he hq⟩
      · right; right; right
        push_neg at hq
        obtain ⟨d, ev, hw, hd⟩ := hq
        exact ⟨hr2, d, ev, hw, hd, run_parked_woken f v w timers ch req T hr2 he d ev hw hd⟩

/-- C1, as the code has it: one call either appends the request to the channel's
contents exactly once and returns true, or leaves the channel as it was and returns
false, or panics with the contents unchanged; the panic occurs only when the channel is
closed when the select runs or is closed by another goroutine while the call is parked. -/
theorem C1_delivered_once_iff_true (f : Char → Char) (v : Viper) (w : World)
    (timers : List Int) (ch : Chan) (req : Request) (T : Int) (hwf : ch.WF) :
    ((TimeoutSendStorageRequest f v w timers ch req T).outcome = Outcome.returned true ∧
      (TimeoutSendStorageRequest f v w timers ch req T).ch.contents = ch.contents ++ [req]) ∨
    ((TimeoutSendStorageRequest f v w timers ch req T).outcome = Outcome.returned false ∧
      (TimeoutSendStorageRequest f v w timers ch req T).ch = ch) ∨
    ((TimeoutSendStorageRequest f v w timers ch req T).outcome = Outcome.panicked ∧
      (TimeoutSendStorageRequest f v w timers ch req T).ch.contents = ch.contents ∧
      (ch.closed = true ∨ ∃ d, w.wake = some (d, ChanEvent.close))) := by
  rcases run_cases f v w timers ch req T with ⟨_, h⟩ | ⟨_, h⟩ | ⟨_, _, h⟩ | ⟨_, d, ev, hw, _, h⟩
  · rw [h]
    by_cases hc : ch.closed = true
    · right; right; simp [sendCase, hc]
    · left; simp [sendCase, hc, contents_send ch req hwf]
  · rw [h]; right; left; simp [timerCase]
  · rw [h]; right; left; simp [timerCase]
  · rw [h]
    cases ev
    · left; simp [contents_recvFromParked]
    · right; right; simp [Chan.contents, hw]

/-- The C1 theorem at an empty channel of capacity 1, timeout 1, in a quiet world. -/
theorem C1_delivered_once_iff_true_witness :
    (Chan.empty 1).WF ∧
    (((TimeoutSendStorageRequest id Viper.unset World.quiet [] (Chan.empty 1) 7 1).outcome
        = Outcome.returned true ∧
      (TimeoutSendStorageRequest id Viper.unset World.quiet [] (Chan.empty 1) 7 1).ch.contents
        = (Chan.empty 1).contents ++ [7]) ∨
    ((TimeoutSendStorageRequest id Viper.unset World.quiet [] (Chan.empty 1) 7 1).outcome
        = Outcome.returned false ∧
      (TimeoutSendStorageRequest id Viper.unset World.quiet [] (Chan.empty 1) 7 1).ch
        = Chan.empty 1) ∨
    ((TimeoutSendStorageRequest id Viper.unset World.quiet [] (Chan.empty 1) 7 1).outcome
        = Outcome.panicked ∧
      (TimeoutSendStorageRequest id Viper.unset World.quiet [] (Chan.empty 1) 7 1).ch.contents
        = (Chan.empty 1).contents ∧
      ((Chan.empty 1).closed = true ∨ ∃ d, World.quiet.wake = some (d, ChanEvent.close)))) :=
  ⟨by decide,
   C1_delivered_once_iff_true id Viper.unset World.quiet [] (Chan.empty 1) 7 1 (by decide)⟩

/-- C1 fails as stated: on a closed channel the call neither returns true with the
request appended nor returns false; it panics. -/
theorem C1_counterexample_closed_channel :
    Chan.closedEmpty.WF ∧
    (TimeoutSendStorageRequest id Viper.unset World.quiet [] Chan.closedEmpty 7 1).outcome
      = Outcome.panicked ∧
    ¬ (((TimeoutSendStorageRequest id Viper.unset World.quiet [] Chan.closedEmpty 7 1).outcome
          = Outcome.returned true ∧
        (TimeoutSendStorageRequest id Viper.unset World.quiet [] Chan.closedEmpty 7 1).ch.contents
          = Chan.closedEmpty.contents ++ [7]) ∨
       ((TimeoutSendStorageRequest id Viper.unset World.quiet [] Chan.closedEmpty 7 1).outcome
          = Outcome.returned false ∧
        (TimeoutSendStorageRequest id Viper.unset World.quiet [] Chan.closedEmpty 7 1).ch.contents
          = Chan.closedEmpty.contents)) := by
  decide

/-! ## `TimeoutSendStorageRequest`: timing -/

/-- C2, as the code has it: for a timeout of 0 to 9223372036 seconds whose deadline is a
representable instant, a call on a channel that cannot take the element when the select
runs, and on which nothing happens before the deadline, returns false, leaves the channel
and the pending timers as they were, and ends at the later of the deadline and the instant
the select was reached: never before the timeout has elapsed, never parked beyond it. -/
theorem C2_timeout_returns_false_at_deadline (f : Char → Char) (v : Viper) (w : World)
    (timers : List Int) (ch : Chan) (req : Request) (T : Int)
    (h0 : 0 ≤ T) (h1 : T ≤ 9223372036) (hnow : 0 ≤ w.now)
    (hrep : w.now + T * 1000000000 ≤ maxInt64)
    (hfull : ch.sendReady = false)
    (hquiet : ∀ d ev, w.wake = some (d, ev) → w.now + T * 1000000000 ≤ w.now + w.lag + d) :
    (TimeoutSendStorageRequest f v w timers ch req T).outcome = Outcome.returned false ∧
    (TimeoutSendStorageRequest f v w timers ch req T).ch = ch ∧
    (TimeoutSendStorageRequest f v w timers ch req T).timers = timers ∧
    (TimeoutSendStorageRequest f v w timers ch req T).endedAt
      = max (w.now + T * 1000000000) (w.now + w.lag) := by
  have hD := when_Duration w.now T h0 h1 hnow hrep
  by_cases he : when w.now (Duration T) ≤ w.now + w.lag
  · rw [run_full_late f v w timers ch req T hfull he]
    rw [hD] at he
    simp [timerCase, max_eq_right he]
  · rw [run_parked_timer f v w timers ch req T hfull he (by rw [hD]; exact hquiet)]
    rw [hD] at he ⊢
    simp [timerCase, max_eq_left (le_of_lt (not_le.mp he))]

/-- The C2 theorem at an unbuffered channel with no receiver, timeout 1. -/
theorem C2_timeout_returns_false_at_deadline_witness :
    (TimeoutSendStorageRequest id Viper.unset World.lateReceiver [] (Chan.empty 0) 7 1).outcome
      = Outcome.returned false ∧
    (TimeoutSendStorageRequest id Viper.unset World.lateReceiver [] (Chan.empty 0) 7 1).ch
      = Chan.empty 0 ∧
    (TimeoutSendStorageRequest id Viper.unset World.lateReceiver [] (Chan.empty 0) 7 1).timers
      = [] ∧
    (TimeoutSendStorageRequest id Viper.unset World.lateReceiver [] (Chan.empty 0) 7 1).endedAt
      = max (World.lateReceiver.now + 1 * 1000000000)
          (World.lateReceiver.now + World.lateReceiver.lag) :=
  C2_timeout_returns_false_at_deadline id Viper.unset World.lateReceiver [] (Chan.empty 0) 7 1
    (by decide) (by decide) (by decide) (by decide) (by decide)
    (by intro d ev h; simp [World.lateReceiver] at h; obtain ⟨rfl, _⟩ := h; decide)

/-- C2 fails as stated: with the non-negative timeout 9223372037 the duration wraps to a
negative number, so on an unbuffered channel with no receiver the call returns false at
the instant it was made, long before 9223372037 seconds have elapsed. -/
theorem C2_counterexample_wrapped_timeout :
    (Chan.empty 0).sendReady = false ∧
    (TimeoutSendStorageRequest id Viper.unset World.quiet [] (Chan.empty 0) 7 9223372037).outcome
      = Outcome.returned false ∧
    (TimeoutSendStorageRequest id Viper.unset World.quiet [] (Chan.empty 0) 7 9223372037).endedAt
      = 0 ∧
    (TimeoutSendStorageRequest id Viper.unset World.quiet [] (Chan.empty 0) 7 9223372037).endedAt
      < World.quiet.now + 9223372037 * 1000000000 := by
  decide

/-- C3, as the code has it: for a timeout of 0 to 9223372036 seconds whose deadline is a
representable instant, a call that finds a receiver parked on the open channel ends when
the select is reached, without parking. If the select is reached before the deadline the
call returns true and the receiver has the request. If the deadline has passed by then,
as it always has for timeout 0, both cases can proceed and the call returns what select
picks: true with the request handed over, or false with the channel untouched. -/
theorem C3_waiting_receiver (f : Char → Char) (v : Viper) (w : World)
    (timers : List Int) (ch : Chan) (req : Request) (T : Int)
    (h0 : 0 ≤ T) (h1 : T ≤ 9223372036) (hnow : 0 ≤ w.now)
    (hrep : w.now + T * 1000000000 ≤ maxInt64)
    (hrecv : 0 < ch.recvq) (hopen : ch.closed = false) :
    (TimeoutSendStorageRequest f v w timers ch req T).endedAt = w.now + w.lag ∧
    ((w.lag : Int) < T * 1000000000 →
      (TimeoutSendStorageRequest f v w timers ch req T).outcome = Outcome.returned true ∧
      (TimeoutSendStorageRequest f v w timers ch req T).ch
        = { ch with recvq := ch.recvq - 1, received := ch.received ++ [req] }) ∧
    (T * 1000000000 ≤ (w.lag : Int) →
      (TimeoutSendStorageRequest f v w timers ch req T).outcome = Outcome.returned w.pick ∧
      (TimeoutSendStorageRequest f v w timers ch req T).ch
        = if w.pick then { ch with recvq := ch.recvq - 1, received := ch.received ++ [req] }
          else ch) := by
  have hD := when_Duration w.now T h0 h1 hnow hrep
  have hr : ch.sendReady = true := by simp [Chan.sendReady, hrecv]
  by_cases he : when w.now (Duration T) ≤ w.now + w.lag
  · rw [run_ready_late f v w timers ch req T hr he]
    rw [hD] at he
    refine ⟨?_, ?_, ?_⟩
    · by_cases hp : w.pick = true <;> simp [hp, sendCase, timerCase]
    · intro hl; omega
    · intro _
      by_cases hp : w.pick = true
      · simp [hp, sendCase, hopen, Chan.send, hrecv]
      · have hp2 : w.pick = false := by simpa using hp
        simp [hp2, timerCase]
  · rw [run_ready_early f v w timers ch req T hr he]
    rw [hD] at he
    refine ⟨?_, ?_, ?_⟩
    · simp [sendCase]
    · intro _
      simp [sendCase, hopen, Chan.send, hrecv]
    · intro hl; omega

/-- The C3 theorem at an unbuffered channel with one parked receiver, timeout 5. -/
theorem C3_waiting_receiver_witness :
    (TimeoutSendStorageRequest id Viper.unset World.quiet [] Chan.withReceiver 7 5).endedAt
      = World.quiet.now + World.quiet.lag ∧
    ((World.quiet.lag : Int) < 5 * 1000000000 →
      (TimeoutSendStorageRequest id Viper.unset World.quiet [] Chan.withReceiver 7 5).outcome
        = Outcome.returned true ∧
      (TimeoutSendStorageRequest id Viper.unset World.quiet [] Chan.withReceiver 7 5).ch
        = { Chan.withReceiver with
              recvq := Chan.withReceiver.recvq - 1
              received := Chan.withReceiver.received ++ [7] }) ∧
    (5 * 1000000000 ≤ (World.quiet.lag : Int) →
      (TimeoutSendStorageRequest id Viper.unset World.quiet [] Chan.withReceiver 7 5).outcome
        = Outcome.returned World.quiet.pick ∧
      (TimeoutSendStorageRequest id Viper.unset World.quiet [] Chan.withReceiver 7 5).ch
        = if World.quiet.pick then
            { Chan.withReceiver with
                recvq := Chan.withReceiver.recvq - 1
                received := Chan.withReceiver.received ++ [7] }
          else Chan.withReceiver) :=
  C3_waiting_receiver id Viper.unset World.quiet [] Chan.withReceiver 7 5
    (by decide) (by decide) (by decide) (by decide) (by decide) (by decide)

/-- C3 fails as stated: with timeout 0 and a receiver parked on the channel, the timer
has already fired when the select runs, select may pick the timer case, and the call
then returns false and the receiver gets nothing. -/
theorem C3_counterexample_zero_timeout :
    Chan.withReceiver.WF ∧ 0 < Chan.withReceiver.recvq ∧
    (TimeoutSendStorageRequest id Viper.unset World.picksTimer [] Chan.withReceiver 7 0).outcome
      = Outcome.returned false ∧
    (TimeoutSendStorageRequest id Viper.unset World.picksTimer [] Chan.withReceiver 7 0).ch
      = Chan.withReceiver := by
  decide

/-- C4, as the code has it: on an open channel of capacity 1 whose buffer is empty and
on which no receiver is parked, a call with timeout 1 that reaches the select before the
1-second deadline returns true without parking, and the request is in the buffer. -/
theorem C4_empty_buffer_accepts (f : Char → Char) (v : Viper) (w : World)
    (timers : List Int) (rs : List Request) (req : Request)
    (hnow : 0 ≤ w.now) (hrep : w.now + 1000000000 ≤ maxInt64)
    (hlag : (w.lag : Int) < 1000000000) :
    (TimeoutSendStorageRequest f v w timers
        { cap := 1, buf := [], recvq := 0, closed := false, received := rs } req 1).outcome
      = Outcome.returned true ∧
    (TimeoutSendStorageRequest f v w timers
        { cap := 1, buf := [], recvq := 0, closed := false, received := rs } req 1).ch
      = { cap := 1, buf := [req], recvq := 0, closed := false, received := rs } ∧
    (TimeoutSendStorageRequest f v w timers
        { cap := 1, buf := [], recvq := 0, closed := false, received := rs } req 1).endedAt
      = w.now + w.lag := by
  have hD := when_Duration w.now 1 (by decide) (by decide) hnow (by simpa using hrep)
  have he : ¬ when w.now (Duration 1) ≤ w.now + w.lag := by rw [hD]; omega
  rw [run_ready_early f v w timers _ req 1 (by simp [Chan.sendReady]) he]
  simp [sendCase, Chan.send]

/-- The C4 theorem in a quiet world. -/
theorem C4_empty_buffer_accepts_witness :
    (TimeoutSendStorageRequest id Viper.unset World.quiet []
        { cap := 1, buf := [], recvq := 0, closed := false, received := [] } 7 1).outcome
      = Outcome.returned true ∧
    (TimeoutSendStorageRequest id Viper.unset World.quiet []
        { cap := 1, buf := [], recvq := 0, closed := false, received := [] } 7 1).ch
      = { cap := 1, buf := [7], recvq := 0, closed := false, received := [] } ∧
    (TimeoutSendStorageRequest id Viper.unset World.quiet []
        { cap := 1, buf := [], recvq := 0, closed := false, received := [] } 7 1).endedAt
      = World.quiet.now + World.quiet.lag :=
  C4_empty_buffer_accepts id Viper.unset World.quiet [] [] 7 (by decide) (by decide) (by decide)

/-- C4 fails as stated: on an empty channel of capacity 1 with no reader, the call with
timeout 1 returns true at once and the request is placed in the channel's buffer. -/
theorem C4_counterexample_buffer_has_room :
    (Chan.empty 1).cap = 1 ∧ (Chan.empty 1).buf = [] ∧ (Chan.empty 1).recvq = 0 ∧
    (TimeoutSendStorageRequest id Viper.unset World.quiet [] (Chan.empty 1) 7 1).outcome
      = Outcome.returned true ∧
    (TimeoutSendStorageRequest id Viper.unset World.quiet [] (Chan.empty 1) 7 1).ch.buf = [7] ∧
    (TimeoutSendStorageRequest id Viper.unset World.quiet [] (Chan.empty 1) 7 1).endedAt = 0 := by
  decide

/-! ## `TimeoutSendStorageRequest`: negative timeouts -/

theorem run_expired (f : Char → Char) (v : Viper) (w : World) (timers : List Int)
    (ch : Chan) (req : Request) (T : Int) (hd : Duration T ≤ 0) :
    TimeoutSendStorageRequest f v w timers ch req T
      = if ch.sendReady = true ∧ w.pick = true then
          sendCase w.asynctimerchan ch req timers w.now (w.now + w.lag) (written f v w T)
        else timerCase ch timers (w.now + w.lag) (written f v w T) := by
  have hw : when w.now (Duration T) = w.now := when_of_nonpos _ _ hd
  have he : when w.now (Duration T) ≤ w.now + w.lag := by rw [hw]; omega
  by_cases hr : ch.sendReady = true
  · rw [run_ready_late f v w timers ch req T hr he, hw]
    by_cases hp : w.pick = true <;> simp [hr, hp]
  · have hr2 : ch.sendReady = false := by simpa using hr
    rw [run_full_late f v w timers ch req T hr2 he]
    simp [hr2]

/-- C7, as the code has it: for a negative timeout down to -9223372036 seconds, the call
ends the same way, leaves the same channel and the same pending timers, and ends at the
same instant as the call with timeout 0 in the same state and world; that instant is the
one at which the select is reached, so the call never parks. -/
theorem C7_negative_timeout_as_zero (f : Char → Char) (v : Viper) (w : World)
    (timers : List Int) (ch : Chan) (req : Request) (T : Int)
    (h1 : -9223372036 ≤ T) (h2 : T < 0) :
    (TimeoutSendStorageRequest f v w timers ch req T).outcome
      = (TimeoutSendStorageRequest f v w timers ch req 0).outcome ∧
    (TimeoutSendStorageRequest f v w timers ch req T).ch
      = (TimeoutSendStorageRequest f v w timers ch req 0).ch ∧
    (TimeoutSendStorageRequest f v w timers ch req T).timers
      = (TimeoutSendStorageRequest f v w timers ch req 0).timers ∧
    (TimeoutSendStorageRequest f v w timers ch req T).endedAt
      = (TimeoutSendStorageRequest f v w timers ch req 0).endedAt ∧
    (TimeoutSendStorageRequest f v w timers ch req T).endedAt = w.now + w.lag := by
  have hT : Duration T ≤ 0 := by rw [Duration_exact T h1 (by omega)]; omega
  have h0 : Duration 0 ≤ 0 := by decide
  rw [run_expired f v w timers ch req T hT, run_expired f v w timers ch req 0 h0]
  by_cases hc : ch.sendReady = true ∧ w.pick = true
  · simp [hc, sendCase]
  · simp only [hc, if_false]
    simp [timerCase]

/-- The C7 theorem at timeout -5, with a receiver parked on the channel. -/
theorem C7_negative_timeout_as_zero_witness :
    (TimeoutSendStorageRequest id Viper.unset World.quiet [] Chan.withReceiver 7 (-5)).outcome
      = (TimeoutSendStorageRequest id Viper.unset World.quiet [] Chan.withReceiver 7 0).outcome ∧
    (TimeoutSendStorageRequest id Viper.unset World.quiet [] Chan.withReceiver 7 (-5)).ch
      = (TimeoutSendStorageRequest id Viper.unset World.quiet [] Chan.withReceiver 7 0).ch ∧
    (TimeoutSendStorageRequest id Viper.unset World.quiet [] Chan.withReceiver 7 (-5)).timers
      = (TimeoutSendStorageRequest id Viper.unset World.quiet [] Chan.withReceiver 7 0).timers ∧
    (TimeoutSendStorageRequest id Viper.unset World.quiet [] Chan.withReceiver 7 (-5)).endedAt
      = (TimeoutSendStorageRequest id Viper.unset World.quiet [] Chan.withReceiver 7 0).endedAt ∧
    (TimeoutSendStorageRequest id Viper.unset World.quiet [] Chan.withReceiver 7 (-5)).endedAt
      = World.quiet.now + World.quiet.lag :=
  C7_negative_timeout_as_zero id Viper.unset World.quiet [] Chan.withReceiver 7 (-5)
    (by decide) (by decide)

/-- C7 fails as stated: the negative timeout -9223372037 wraps to a positive duration of
about 292 years, so on an unbuffered channel where a receiver turns up 5 ns later the call
parks and returns true, while the call with timeout 0 returns false at once. -/
theorem C7_counterexample_wrapped_negative :
    Duration (-9223372037) = 9223372036709551616 ∧
    (TimeoutSendStorageRequest id Viper.unset World.promptReceiver [] (Chan.empty 0) 7
        (-9223372037)).outcome = Outcome.returned true ∧
    (TimeoutSendStorageRequest id Viper.unset World.promptReceiver [] (Chan.empty 0) 7
        (-9223372037)).endedAt = 5 ∧
    (TimeoutSendStorageRequest id Viper.unset World.promptReceiver [] (Chan.empty 0) 7
        0).outcome = Outcome.returned false ∧
    (TimeoutSendStorageRequest id Viper.unset World.promptReceiver [] (Chan.empty 0) 7
        0).endedAt = 0 := by
  decide

/-! ## `TimeoutSendStorageRequest`: log records -/

theorem run_out (f : Char → Char) (v : Viper) (w : World) (timers : List Int)
    (ch : Chan) (req : Request) (T : Int) :
    (TimeoutSendStorageRequest f v w timers ch req T).out = written f v w T := by
  rcases run_cases f v w timers ch req T with ⟨_, h⟩ | ⟨_, h⟩ | ⟨_, _, h⟩ | ⟨_, d, ev, _, _, h⟩
  · rw [h]; rfl
  · rw [h]; rfl
  · rw [h]; rfl
  · rw [h]

theorem Info_eq (l : Logger) (ok : Bool) (msg : String) :
    l.Info ok msg
      = if l.level = Level.DebugLevel ∨ l.level = Level.InfoLevel then
          [logged l.out (l.out.accepts ok) msg]
        else [] := by
  unfold Logger.Info logged
  cases hl : l.level <;> cases ha : l.out.accepts ok <;> simp [Level.Enabled, Level.toInt]

theorem written_eq (f : Char → Char) (v : Viper) (w : World) (T : Int) :
    written f v w T
      = (ConfigureLogger f v).printed ++
        (if (ConfigureLogger f v).level = Level.DebugLevel
            ∨ (ConfigureLogger f v).level = Level.InfoLevel then
          [logged (ConfigureLogger f v).logger.out
              ((ConfigureLogger f v).logger.out.accepts (!w.failedWrites.contains 0))
              "In TimeoutSendStorageRequest(...)",
           logged (ConfigureLogger f v).logger.out
              ((ConfigureLogger f v).logger.out.accepts (!w.failedWrites.contains 1))
              ("Duration = " ++ Itoa T),
           logged (ConfigureLogger f v).logger.out
              ((ConfigureLogger f v).logger.out.accepts (!w.failedWrites.contains 2))
              "After the timeout in TimeoutSendStorageRequest(...)"]
         else []) := by
  unfold written
  rw [Info_eq, Info_eq, Info_eq]
  have hl : (ConfigureLogger f v).logger.level = (ConfigureLogger f v).level := rfl
  rw [hl]
  by_cases h : (ConfigureLogger f v).level = Level.DebugLevel
      ∨ (ConfigureLogger f v).level = Level.InfoLevel
  · simp only [h, if_true]
    simp
  · simp only [h, if_false]
    simp

/-- The size limit of lumberjack is a multiple of 2^20: it is not positive, or at least
one megabyte, which no record of this program reaches. -/
theorem lumberjackMax_dichotomy (m : Int) :
    lumberjackMax m ≤ 0 ∨ 1048576 ≤ lumberjackMax m := by
  unfold lumberjackMax wrap64
  by_cases h : m = 0
  · simp [h]
  · simp only [h, if_false]
    omega

/-- C8, as the code has it: every call makes three `logger.Info` calls, for the entry
into the function, the timeout value and the point after the timer is created. When
the configured threshold is higher than info nothing comes of them. When it is debug or
info each call, in program order, leaves one entry: the info record when the write
syncer takes the write, and zap's write error on standard error, with no record written,
when it does not. The syncer refuses when the lumberjack size limit is not positive or
the operating system fails the write; with a syncer that takes every write the call
writes exactly the three info records. What is written depends only on the
configuration, the timeout value and the failed writes, hence not on the outcome. -/
theorem C8_three_info_calls (f : Char → Char) (v : Viper) (w : World)
    (timers : List Int) (ch : Chan) (req : Request) (T : Int) :
    (TimeoutSendStorageRequest f v w timers ch req T).out
      = (ConfigureLogger f v).printed ++
        (if (ConfigureLogger f v).level = Level.DebugLevel
            ∨ (ConfigureLogger f v).level = Level.InfoLevel then
          [logged (ConfigureLogger f v).logger.out
              ((ConfigureLogger f v).logger.out.accepts (!w.failedWrites.contains 0))
              "In TimeoutSendStorageRequest(...)",
           logged (ConfigureLogger f v).logger.out
              ((ConfigureLogger f v).logger.out.accepts (!w.failedWrites.contains 1))
              ("Duration = " ++ Itoa T),
           logged (ConfigureLogger f v).logger.out
              ((ConfigureLogger f v).logger.out.accepts (!w.failedWrites.contains 2))
              "After the timeout in TimeoutSendStorageRequest(...)"]
         else []) ∧
    ((ConfigureLogger f v).logger.out.accepts true = true → w.failedWrites = [] →
      (TimeoutSendStorageRequest f v w timers ch req T).out
        = (ConfigureLogger f v).printed ++
          (if (ConfigureLogger f v).level = Level.DebugLevel
              ∨ (ConfigureLogger f v).level = Level.InfoLevel then
            [Emit.record (ConfigureLogger f v).logger.out Level.InfoLevel
                "In TimeoutSendStorageRequest(...)",
             Emit.record (ConfigureLogger f v).logger.out Level.InfoLevel
                ("Duration = " ++ Itoa T),
             Emit.record (ConfigureLogger f v).logger.out Level.InfoLevel
                "After the timeout in TimeoutSendStorageRequest(...)"]
           else [])) ∧
    ((ConfigureLogger f v).logger.out.accepts true = false →
      ∀ o l m, Emit.record o l m ∉ (TimeoutSendStorageRequest f v w timers ch req T).out) ∧
    (∀ (w2 : World) (timers2 : List Int) (ch2 : Chan) (req2 : Request),
      w2.failedWrites = w.failedWrites →
      (TimeoutSendStorageRequest f v w2 timers2 ch2 req2 T).out
        = (TimeoutSendStorageRequest f v w timers ch req T).out) := by
  refine ⟨?_, ?_, ?_, ?_⟩
  · rw [run_out, written_eq]
  · intro hacc hfw
    rw [run_out, written_eq, hfw]
    simp [logged, hacc]
  · intro hacc o l m
    have hno : ∀ b, (ConfigureLogger f v).logger.out.accepts b = false := by
      intro b
      cases b
      · cases hs : (ConfigureLogger f v).logger.out <;> simp [WriteSyncer.accepts]
      · exact hacc
    have hp := (printed_record_free f v)
    rw [run_out, written_eq]
    by_cases h : (ConfigureLogger f v).level = Level.DebugLevel
        ∨ (ConfigureLogger f v).level = Level.InfoLevel
    · simp only [h, if_true, hno, logged]
      simp [hp]
    · simp only [h, if_false]
      simp [hp]
  · intro w2 timers2 ch2 req2 hfw
    rw [run_out, run_out, written_eq, written_eq, hfw]

/-- C8 fails as stated: with the default configuration a call writes three info
records, not two. -/
theorem C8_counterexample_three_records :
    (TimeoutSendStorageRequest id Viper.unset World.quiet [] (Chan.empty 1) 7 1).out
      = [Emit.record WriteSyncer.stdout Level.InfoLevel "In TimeoutSendStorageRequest(...)",
         Emit.record WriteSyncer.stdout Level.InfoLevel "Duration = 1",
         Emit.record WriteSyncer.stdout Level.InfoLevel
           "After the timeout in TimeoutSendStorageRequest(...)"] ∧
    (TimeoutSendStorageRequest id Viper.unset World.quiet [] (Chan.empty 1) 7 1).out.length ≠ 2 := by
  decide

/-- The C8 theorem at a rotating-file configuration with `logging.maxsize` -1:
lumberjack refuses every write, so the three calls leave three write errors and no
record. -/
theorem C8_three_info_calls_witness :
    (ConfigureLogger id Viper.negativeMaxsize).logger.out.accepts true = false ∧
    (TimeoutSendStorageRequest id Viper.negativeMaxsize World.quiet [] (Chan.empty 1) 7 1).out
      = [Emit.writeError (WriteSyncer.lumberjack "burrow.log" (-1) 10 30 false false)
           Level.InfoLevel "In TimeoutSendStorageRequest(...)",
         Emit.writeError (WriteSyncer.lumberjack "burrow.log" (-1) 10 30 false false)
           Level.InfoLevel "Duration = 1",
         Emit.writeError (WriteSyncer.lumberjack "burrow.log" (-1) 10 30 false false)
           Level.InfoLevel "After the timeout in TimeoutSendStorageRequest(...)"] ∧
    (∀ o l m, Emit.record o l m ∉
      (TimeoutSendStorageRequest id Viper.negativeMaxsize World.quiet [] (Chan.empty 1) 7 1).out) ∧
    (TimeoutSendStorageRequest id Viper.unset World.secondWriteFails [] (Chan.empty 1) 7 1).out
      = [Emit.record WriteSyncer.stdout Level.InfoLevel "In TimeoutSendStorageRequest(...)",
         Emit.writeError WriteSyncer.stdout Level.InfoLevel "Duration = 1",
         Emit.record WriteSyncer.stdout Level.InfoLevel
           "After the timeout in TimeoutSendStorageRequest(...)"] :=
  ⟨by decide, by decide,
   (C8_three_info_calls id Viper.negativeMaxsize World.quiet [] (Chan.empty 1) 7 1).2.2.1
     (by decide),
   by decide⟩

/-! ## `TimeoutSendStorageRequest`: timers -/

/-- C9, as the code has it: the function never stops the timer it creates, and what is
pending after the call depends on the runtime. After a call that returned false, or that
ended when the timer's instant had passed, the pending timers are those pending before
it, on every runtime. After a call that sent or panicked before the deadline, the
timer is still pending on a runtime older than Go 1.23 (the pending timers are those
before the call followed by it), and no timer of the call is pending on Go 1.23 and
later (the pending timers are those before the call). -/
theorem C9_timer_pending_by_runtime (f : Char → Char) (v : Viper) (w : World)
    (timers : List Int) (ch : Chan) (req : Request) (T : Int) :
    (TimeoutSendStorageRequest f v w timers ch req T).timers
      = (if w.asynctimerchan = true
            ∧ (TimeoutSendStorageRequest f v w timers ch req T).outcome ≠ Outcome.returned false
            ∧ (TimeoutSendStorageRequest f v w timers ch req T).endedAt
                < when w.now (Duration T)
         then timers ++ [when w.now (Duration T)]
         else timers) ∧
    (w.asynctimerchan = false →
      (TimeoutSendStorageRequest f v w timers ch req T).timers = timers) ∧
    ((TimeoutSendStorageRequest f v w timers ch req T).outcome = Outcome.returned false →
      (TimeoutSendStorageRequest f v w timers ch req T).timers = timers) ∧
    (w.asynctimerchan = true →
      (TimeoutSendStorageRequest f v w timers ch req T).outcome = Outcome.returned true →
      (TimeoutSendStorageRequest f v w timers ch req T).endedAt < when w.now (Duration T) →
      (TimeoutSendStorageRequest f v w timers ch req T).timers
        = timers ++ [when w.now (Duration T)]) := by
  have key : (TimeoutSendStorageRequest f v w timers ch req T).timers
      = (if w.asynctimerchan = true
            ∧ (TimeoutSendStorageRequest f v w timers ch req T).outcome ≠ Outcome.returned false
            ∧ (TimeoutSendStorageRequest f v w timers ch req T).endedAt
                < when w.now (Duration T)
         then timers ++ [when w.now (Duration T)]
         else timers) := by
    rcases run_cases f v w timers ch req T with
      ⟨_, h⟩ | ⟨_, h⟩ | ⟨_, _, h⟩ | ⟨_, d, ev, _, hd, h⟩
    · rw [h]
      by_cases hc : ch.closed = true <;> simp [sendCase, pendingAfterSelect, hc]
    · rw [h]; simp [timerCase]
    · rw [h]; simp [timerCase]
    · rw [h]
      cases ev <;> simp [pendingAfterSelect]
  refine ⟨key, ?_, ?_, ?_⟩
  · intro ha
    rw [key]
    simp [ha]
  · intro ho
    rw [key]
    simp [ho]
  · intro ha ho he
    rw [key]
    simp [ha, ho, he]

/-- C9 fails as stated: on a runtime older than Go 1.23, a call with timeout 1 on an
empty channel of capacity 1 returns true at instant 0 and leaves the timer it created,
due at 1 s, pending. -/
theorem C9_counterexample_timer_pending :
    World.beforeGo123.asynctimerchan = true ∧
    (TimeoutSendStorageRequest id Viper.unset World.beforeGo123 [] (Chan.empty 1) 7 1).outcome
      = Outcome.returned true ∧
    (TimeoutSendStorageRequest id Viper.unset World.beforeGo123 [] (Chan.empty 1) 7 1).endedAt
      = 0 ∧
    (TimeoutSendStorageRequest id Viper.unset World.beforeGo123 [] (Chan.empty 1) 7 1).timers
      = [1000000000] ∧
    (TimeoutSendStorageRequest id Viper.unset World.beforeGo123 [] (Chan.empty 1) 7 1).timers
      ≠ [] := by
  decide

/-- The C9 theorem on Go 1.23 and later: the call with timeout 1 on an empty channel of
capacity 1 returns true and no timer is pending afterwards. -/
theorem C9_timer_pending_by_runtime_witness :
    World.quiet.asynctimerchan = false ∧
    (TimeoutSendStorageRequest id Viper.unset World.quiet [] (Chan.empty 1) 7 1).outcome
      = Outcome.returned true ∧
    (TimeoutSendStorageRequest id Viper.unset World.quiet [] (Chan.empty 1) 7 1).timers = [] :=
  ⟨by decide, by decide,
   (C9_timer_pending_by_runtime id Viper.unset World.quiet [] (Chan.empty 1) 7 1).2.1
     (by decide)⟩

/-! ## The wait duration -/

theorem when_eq_min (now d : Int) (hd : 0 ≤ d) (hd2 : d ≤ maxInt64) (hnow : 0 ≤ now)
    (hnow2 : now ≤ maxInt64) : when now d = min (now + d) maxInt64 := by
  rcases lt_or_ge 0 d with h | h
  · rcases le_or_lt (now + d) maxInt64 with hr | hr
    · rw [when_of_pos now d h hnow hr, min_eq_left hr]
    · rw [when_saturates now d h hd2 hnow hnow2 hr, min_eq_right (le_of_lt hr)]
  · have : d = 0 := by omega
    subst this
    rw [when_of_nonpos now 0 (le_refl 0)]
    simp [hnow2]

/-- C10, as the code has it: for a timeout of 0 to 9223372036 seconds the duration
computed is exactly the timeout times 10^9 nanoseconds. For every clock reading the
deadline is then now plus the timeout when that instant is representable and the
largest instant, 2^63 - 1, when it is not; it is never earlier than now and does not
decrease when the timeout grows. -/
theorem C10_duration_exact_in_range (T : Int) (h0 : 0 ≤ T) (h1 : T ≤ 9223372036) :
    Duration T = T * 1000000000 ∧
    (∀ now : Int, 0 ≤ now → now ≤ maxInt64 →
      when now (Duration T) = min (now + T * 1000000000) 9223372036854775807 ∧
      now ≤ when now (Duration T) ∧
      (now + T * 1000000000 ≤ 9223372036854775807 →
        when now (Duration T) = now + T * 1000000000) ∧
      (9223372036854775807 < now + T * 1000000000 →
        when now (Duration T) = 9223372036854775807) ∧
      (∀ T2 : Int, 0 ≤ T2 → T2 ≤ T → when now (Duration T2) ≤ when now (Duration T))) := by
  have hD := Duration_exact T (by omega) h1
  refine ⟨hD, ?_⟩
  intro now hnow hnow2
  have hm : maxInt64 = 9223372036854775807 := rfl
  have hw0 := when_eq_min now (Duration T) (by rw [hD]; omega) (by rw [hD, hm]; omega)
    hnow hnow2
  have hw : when now (Duration T) = min (now + T * 1000000000) 9223372036854775807 := by
    rw [hw0, hD, hm]
  rw [hm] at hnow2
  refine ⟨hw, ?_, ?_, ?_, ?_⟩
  · rw [hw]
    exact le_min (by omega) hnow2
  · intro hrep
    rw [hw, min_eq_left hrep]
  · intro hover
    rw [hw, min_eq_right (le_of_lt hover)]
  · intro T2 h20 h2T
    have hD2 := Duration_exact T2 (by omega) (by omega)
    have hw1 := when_eq_min now (Duration T2) (by rw [hD2]; omega) (by rw [hD2, hm]; omega)
      hnow (by rw [hm]; exact hnow2)
    have hw2 : when now (Duration T2) = min (now + T2 * 1000000000) 9223372036854775807 := by
      rw [hw1, hD2, hm]
    rw [hw, hw2]
    exact min_le_min (by omega) (le_refl _)

/-- The C10 theorem at timeout 5. -/
theorem C10_duration_exact_in_range_witness :
    Duration 5 = 5 * 1000000000 ∧
    (∀ now : Int, 0 ≤ now → now ≤ maxInt64 →
      when now (Duration 5) = min (now + 5 * 1000000000) 9223372036854775807 ∧
      now ≤ when now (Duration 5) ∧
      (now + 5 * 1000000000 ≤ 9223372036854775807 →
        when now (Duration 5) = now + 5 * 1000000000) ∧
      (9223372036854775807 < now + 5 * 1000000000 →
        when now (Duration 5) = 9223372036854775807) ∧
      (∀ T2 : Int, 0 ≤ T2 → T2 ≤ 5 → when now (Duration T2) ≤ when now (Duration 5))) :=
  C10_duration_exact_in_range 5 (by decide) (by decide)

/-- C10 fails as stated: for the non-negative timeout 9223372037 the 64-bit product wraps
to a negative duration, which is not the timeout times 10^9; the deadline is then now
itself, and it is earlier than the deadline of the smaller timeout 1. -/
theorem C10_counterexample_wrapped_duration :
    Duration 9223372037 = -9223372036709551616 ∧
    Duration 9223372037 ≠ 9223372037 * 1000000000 ∧
    when 0 (Duration 9223372037) = 0 ∧
    when 0 (Duration 9223372037) < when 0 (Duration 1) := by
  decide

/-! ## Concrete checks of `ConfigureLogger` -/

/-- The C5 theorem at the level string "WARN": the threshold is warn. -/
theorem C5_threshold_of_level_string_witness :
    (ConfigureLogger id { Viper.unset with level := some "WARN" }).level = Level.WarnLevel :=
  (C5_threshold_of_level_string id { Viper.unset with level := some "WARN" }).2.2.1 (by decide)

/-- The C6 theorem at the level string "bogus": the warning is printed and the
threshold is info. -/
theorem C6_warning_iff_unrecognized_witness :
    Emit.printf "Invalid log level supplied. Defaulting to info: bogus"
      ∈ (ConfigureLogger id { Viper.unset with level := some "bogus" }).printed ∧
    (ConfigureLogger id { Viper.unset with level := some "bogus" }).level = Level.InfoLevel :=
  ⟨(C6_warning_iff_unrecognized id { Viper.unset with level := some "bogus" }).2.1.mpr
      (by decide),
   (C6_warning_iff_unrecognized id { Viper.unset with level := some "bogus" }).2.2.2.2
      (by decide)⟩

end Burrow
